import Mathlib

/-!
# nRF52 sensor node: a shallow embedding of `src/main.c`

The firmware samples a battery and three I2C sensors from a periodic work item,
stores the readings in the global `send_data` and hands that structure to the
BLE layer, which reads it back through `app_bt_cb`.

Everything outside `main.c` (battery, sensor and BLE drivers, the Zephyr kernel)
is external.  The values those calls hand back are inputs of the model
(`CycleIn`, `BootIn`); the calls themselves are recorded, in program order, in
the `trace` of the `World`.
-/

namespace NRF52Sensors

/-! ## Compile-time configuration and platform constants -/

/-- Line 27: `#define SLEEP_TIME_MS 5000`. -/
def SLEEP_TIME_MS : Nat := 5000

/-- Line 30: `#define CONFIG_SGP30`.  The macro is defined in the source as it
stands, so every `#ifdef CONFIG_SGP30` block is compiled in. -/
def CONFIG_SGP30 : Bool := true

/-- The platform's `errno.h` value of `EINVAL`. -/
def EINVAL : Int := 22

/-- A C `float`, kept as its IEEE-754 binary32 bit pattern.  `main.c` only moves
floats from one object to another; it never computes with them. -/
abbrev c_float := Nat

/-! ## Data model -/

/-- Lines 45-54: `send_data_t`.  The fields `co2` and `tvoc` exist only under
`CONFIG_SGP30`; without it they are never written and never encoded. -/
structure send_data_t where
  battery_mV : Int
  temperature : c_float
  humidity : c_float
  pressure : c_float
  co2 : Nat
  tvoc : Nat
deriving DecidableEq, Repr

/-- Lines 32-43: `struct sensors`.  A handle is modelled by whether the pointer
is non-NULL; `i2c_dev` is a constant and is left out. -/
structure sensors where
  sht3x : Bool
  qmp6988 : Bool
  sgp30 : Bool
  temperature : c_float
  humidity : c_float
  pressure : c_float
  temperature_p : c_float
deriving DecidableEq, Repr

/-- Calls that leave `main.c`, as recorded in the trace. -/
inductive Call where
  | gpio_pin_configure_dt_OUTPUT_ACTIVE
  | gpio_pin_set_dt (value : Nat)
  | battery_measure_enable (enable : Bool)
  | battery_sample
  | sht3x_init_sensor
  | sht3x_get_measurement_duration
  | k_msleep_measurement_duration
  | qmp6988_init_sensor
  | sgp30_init_sensor
  | sgp30_initAirQuality
  | k_msleep_INIT_AIR_QUALITY_DURATION_MS
  | sht3x_measure
  | qmp6988_calcPressure
  | sgp30_measureAirQuality
  | sgp30_setCompensation (humidity temperature : c_float)
  | bt_app_send_data (data : List Nat) (len : Nat)
  | bt_app_init
  | bt_app_advertise_start
  | k_timer_start (duration_ms period_ms : Nat)
  | LOG_WRN
  | LOG_ERR
  | LOG_INF
deriving DecidableEq, Repr

/-- The globals of `main.c` together with the observable platform state:
the logical level of the `led0` output (`none` until the pin is configured),
whether `app_timer` has been started, and the calls made so far. -/
structure World where
  send_data : send_data_t
  env_sensors : sensors
  led0 : Option Nat
  app_timer : Bool
  trace : List Call
deriving DecidableEq, Repr

/-- Lines 56-76: the static initialisers (unnamed members are zero). -/
def World.boot : World :=
  { send_data := { battery_mV := 0, temperature := 0, humidity := 0, pressure := 0,
                   co2 := 0, tvoc := 0 },
    env_sensors := { sht3x := false, qmp6988 := false, sgp30 := false,
                     temperature := 0, humidity := 0, pressure := 0, temperature_p := 0 },
    led0 := none,
    app_timer := false,
    trace := [] }

/-- What the external calls of one acquisition cycle hand back.  For a call with
output pointers the value is the content of the pointee after the call. -/
structure CycleIn where
  batt_mV : Int
  sht3x_ret : Int
  sht3x_temperature : c_float
  sht3x_humidity : c_float
  qmp6988_pressure : c_float
  qmp6988_temperature : c_float
  sgp30_CO2 : Nat
  sgp30_TVOC : Nat
deriving DecidableEq, Repr

/-- What the external calls of `main` hand back: return codes, and for the
sensor constructors whether the returned handle is non-NULL. -/
structure BootIn where
  gpio_ret : Int
  sht3x_ok : Bool
  qmp6988_ok : Bool
  sgp30_ok : Bool
  bt_init_ret : Int
  adv_ret : Int
deriving DecidableEq, Repr

/-! ## Object representation of `send_data_t`

The target is a 32-bit little-endian ARM core: `int` and `float` occupy four
bytes, `uint16_t` two, each aligned to its size. -/

inductive CType where
  | int
  | float
  | uint16_t
deriving DecidableEq, Repr

def CType.sizeof : CType → Nat
  | .int => 4
  | .float => 4
  | .uint16_t => 2

def CType.alignof : CType → Nat
  | .int => 4
  | .float => 4
  | .uint16_t => 2

/-- The least multiple of `a` that is at least `off`. -/
def align_up (off a : Nat) : Nat := (off + a - 1) / a * a

/-- The `n` low-order bytes of `v`, least significant first. -/
def le_bytes : Nat → Nat → List Nat
  | 0, _ => []
  | n + 1, v => v % 256 :: le_bytes n (v / 256)

/-- Two's-complement image of a C `int`. -/
def int_bits (i : Int) : Nat := (i % 2 ^ 32).toNat

/-- Members of `send_data_t` in declaration order, with their raw values. -/
def send_data_members (cfg : Bool) (d : send_data_t) : List (CType × Nat) :=
  [(CType.int, int_bits d.battery_mV), (CType.float, d.temperature),
   (CType.float, d.humidity), (CType.float, d.pressure)]
  ++ (if cfg then [(CType.uint16_t, d.co2), (CType.uint16_t, d.tvoc)] else [])

/-- Lays members out from offset `off`: each one is preceded by the padding its
alignment asks for (padding bytes read as zero). -/
def struct_bytes_from : Nat → List (CType × Nat) → List Nat
  | _, [] => []
  | off, (ty, v) :: ms =>
    let o := align_up off ty.alignof
    List.replicate (o - off) 0 ++ le_bytes ty.sizeof v ++ struct_bytes_from (o + ty.sizeof) ms

def struct_align (ms : List (CType × Nat)) : Nat :=
  ms.foldl (fun a m => max a m.1.alignof) 1

/-- Object representation of a structure: members, then tail padding up to the
structure's alignment. -/
def struct_bytes (ms : List (CType × Nat)) : List Nat :=
  let b := struct_bytes_from 0 ms
  b ++ List.replicate (align_up b.length (struct_align ms) - b.length) 0

/-- The bytes of a `send_data_t` object. -/
def bytes_of_send_data (cfg : Bool) (d : send_data_t) : List Nat :=
  struct_bytes (send_data_members cfg d)

/-- `sizeof(send_data_t)`. -/
def sizeof_send_data_t (cfg : Bool) : Nat :=
  (bytes_of_send_data cfg World.boot.send_data).length

/-- `memcpy(dst, src, n)`: the first `n` bytes at `dst` are replaced by the first
`n` bytes at `src`; `dst` stands for the memory from the pointer onwards. -/
def memcpy (dst src : List Nat) (n : Nat) : List Nat := src.take n ++ dst.drop n

/-! ## The acquisition cycle (lines 86-123, 196-207) -/

def emit (c : Call) (w : World) : World := { w with trace := w.trace ++ [c] }

/-- `gpio_pin_set_dt(&led0_spec, value)`: sets the logical level of the output. -/
def gpio_pin_set_dt (value : Nat) (w : World) : World :=
  { emit (Call.gpio_pin_set_dt value) w with led0 := some value }

def battery_measure_enable (enable : Bool) (w : World) : World :=
  emit (Call.battery_measure_enable enable) w

def battery_sample (w : World) : World := emit Call.battery_sample w

/-- Lines 92-96. -/
def store_battery (batt_mV : Int) (w : World) : World :=
  if batt_mV < 0 then emit Call.LOG_WRN w
  else { w with send_data := { w.send_data with battery_mV := batt_mV } }

/-- Line 199: the driver fills `env_sensors->temperature` and `->humidity`. -/
def sht3x_measure (inp : CycleIn) (w : World) : World :=
  emit Call.sht3x_measure
    { w with env_sensors := { w.env_sensors with temperature := inp.sht3x_temperature,
                                                 humidity := inp.sht3x_humidity } }

/-- Line 200: the driver fills `env_sensors->pressure` and `->temperature_p`. -/
def qmp6988_calcPressure (inp : CycleIn) (w : World) : World :=
  emit Call.qmp6988_calcPressure
    { w with env_sensors := { w.env_sensors with pressure := inp.qmp6988_pressure,
                                                 temperature_p := inp.qmp6988_temperature } }

def sgp30_measureAirQuality (w : World) : World := emit Call.sgp30_measureAirQuality w

/-- Line 204. -/
def sgp30_setCompensation (w : World) : World :=
  emit (Call.sgp30_setCompensation w.env_sensors.humidity w.env_sensors.temperature) w

/-- Lines 196-207. -/
def get_i2c_sensors_values (cfg : Bool) (inp : CycleIn) (w : World) : World :=
  let ret := inp.sht3x_ret
  let w := sht3x_measure inp w
  let w := qmp6988_calcPressure inp w
  if cfg then
    let w := sgp30_measureAirQuality w
    if ret ≠ 0 then sgp30_setCompensation w else w
  else w

def store_temperature (w : World) : World :=
  { w with send_data := { w.send_data with temperature := w.env_sensors.temperature } }

def store_humidity (w : World) : World :=
  { w with send_data := { w.send_data with humidity := w.env_sensors.humidity } }

def store_pressure (w : World) : World :=
  { w with send_data := { w.send_data with pressure := w.env_sensors.pressure } }

/-- Line 117; the store converts to `uint16_t`. -/
def store_co2 (inp : CycleIn) (w : World) : World :=
  { w with send_data := { w.send_data with co2 := inp.sgp30_CO2 % 2 ^ 16 } }

/-- Line 118. -/
def store_tvoc (inp : CycleIn) (w : World) : World :=
  { w with send_data := { w.send_data with tvoc := inp.sgp30_TVOC % 2 ^ 16 } }

/-- Line 120: `bt_app_send_data(&send_data, sizeof(send_data_t))`. -/
def bt_app_send_data (cfg : Bool) (w : World) : World :=
  emit (Call.bt_app_send_data (bytes_of_send_data cfg w.send_data) (sizeof_send_data_t cfg)) w

/-- Lines 86-123. -/
def app_work_handler (cfg : Bool) (inp : CycleIn) (w : World) : World :=
  let w := gpio_pin_set_dt 0 w
  let w := battery_measure_enable true w
  let batt_mV := inp.batt_mV
  let w := battery_sample w
  let w := store_battery batt_mV w
  let w := battery_measure_enable false w
  let w := get_i2c_sensors_values cfg inp w
  let w := emit Call.LOG_INF w
  let w := store_temperature w
  let w := store_humidity w
  let w := store_pressure w
  let w := if cfg then store_tvoc inp (store_co2 inp w) else w
  let w := bt_app_send_data cfg w
  gpio_pin_set_dt 1 w

/-- The statements of `app_work_handler` one by one, calls into
`get_i2c_sensors_values` expanded; a statement compiled out or not taken leaves
the world as it is. -/
def app_work_steps (cfg : Bool) (inp : CycleIn) : List (World → World) :=
  [ gpio_pin_set_dt 0,
    battery_measure_enable true,
    battery_sample,
    store_battery inp.batt_mV,
    battery_measure_enable false,
    sht3x_measure inp,
    qmp6988_calcPressure inp,
    (fun w => if cfg then sgp30_measureAirQuality w else w),
    (fun w => if cfg ∧ inp.sht3x_ret ≠ 0 then sgp30_setCompensation w else w),
    emit Call.LOG_INF,
    store_temperature,
    store_humidity,
    store_pressure,
    (fun w => if cfg then store_co2 inp w else w),
    (fun w => if cfg then store_tvoc inp w else w),
    bt_app_send_data cfg,
    gpio_pin_set_dt 1 ]

/-- Runs a list of statements in order. -/
def run_steps (fs : List (World → World)) (w : World) : World :=
  fs.foldl (fun w f => f w) w

/-- The world after the first `k` statements of a cycle. -/
def cycle_after (cfg : Bool) (inp : CycleIn) (k : Nat) (w : World) : World :=
  run_steps ((app_work_steps cfg inp).take k) w

/-! ## The read callback (lines 150-159) -/

/-- Lines 150-159, with `APP_BT_MAX_ATTR_LEN` (declared in `app_bt.h`) as a
parameter.  Returns the return value, the memory at `data` and the world. -/
def app_bt_cb (cfg : Bool) (APP_BT_MAX_ATTR_LEN : Nat) (data : List Nat) (w : World) :
    Int × List Nat × World :=
  if APP_BT_MAX_ATTR_LEN < sizeof_send_data_t cfg then
    (-EINVAL, data, emit Call.LOG_ERR w)
  else
    ((sizeof_send_data_t cfg : Int),
     memcpy data (bytes_of_send_data cfg w.send_data) (sizeof_send_data_t cfg), w)

/-! ## Start-up (lines 165-194, 209-242) -/

/-- Lines 165-194. -/
def init_i2c_sensors (cfg : Bool) (b : BootIn) (w : World) : Bool × World :=
  let w := emit Call.sht3x_init_sensor
    { w with env_sensors := { w.env_sensors with sht3x := b.sht3x_ok } }
  if w.env_sensors.sht3x = false then (false, emit Call.LOG_ERR w)
  else
    let w := emit Call.sht3x_get_measurement_duration w
    let w := emit Call.k_msleep_measurement_duration w
    let w := emit Call.qmp6988_init_sensor
      { w with env_sensors := { w.env_sensors with qmp6988 := b.qmp6988_ok } }
    if w.env_sensors.qmp6988 = false then (false, emit Call.LOG_ERR w)
    else if cfg then
      let w := emit Call.sgp30_init_sensor
        { w with env_sensors := { w.env_sensors with sgp30 := b.sgp30_ok } }
      if w.env_sensors.sgp30 = false then (false, emit Call.LOG_ERR w)
      else
        let w := emit Call.sgp30_initAirQuality w
        let w := emit Call.k_msleep_INIT_AIR_QUALITY_DURATION_MS w
        (true, w)
    else (true, w)

/-- `gpio_pin_configure_dt(&led0_spec, GPIO_OUTPUT_ACTIVE)`: on success the pin
is an output initialised to logical level 1. -/
def gpio_pin_configure_dt_OUTPUT_ACTIVE (ret : Int) (w : World) : World :=
  let w := emit Call.gpio_pin_configure_dt_OUTPUT_ACTIVE w
  if ret < 0 then w else { w with led0 := some 1 }

/-- `k_timer_start(&app_timer, K_SECONDS(1), K_MSEC(SLEEP_TIME_MS))`. -/
def k_timer_start (w : World) : World :=
  { emit (Call.k_timer_start 1000 SLEEP_TIME_MS) w with app_timer := true }

/-- Lines 209-242. -/
def main (cfg : Bool) (b : BootIn) (w : World) : World :=
  let ret := b.gpio_ret
  let w := gpio_pin_configure_dt_OUTPUT_ACTIVE ret w
  if ret < 0 then emit Call.LOG_ERR w
  else
    let r := init_i2c_sensors cfg b w
    let w := r.2
    if r.1 = false then emit Call.LOG_ERR w
    else
      let ret := b.bt_init_ret
      let w := emit Call.bt_app_init w
      if ret ≠ 0 then emit Call.LOG_ERR w
      else
        let ret := b.adv_ret
        let w := emit Call.bt_app_advertise_start w
        if ret ≠ 0 then emit Call.LOG_ERR w
        else k_timer_start w

/-! ## The running system

`app_timer` expires only once it has been started; each expiry submits
`app_work` (lines 125-128), whose handler runs one acquisition cycle. -/

/-- One expiry of `app_timer`. -/
def app_timer_expiry (cfg : Bool) (w : World) (inp : CycleIn) : World :=
  if w.app_timer then app_work_handler cfg inp w else w

/-- Start-up from the static initial state, followed by one cycle per expiry. -/
def system_run (cfg : Bool) (b : BootIn) (ticks : List CycleIn) : World :=
  ticks.foldl (app_timer_expiry cfg) (main cfg b World.boot)

/-- Number of snapshots handed to the BLE layer so far. -/
def publish_count (w : World) : Nat :=
  (w.trace.filter (fun c => match c with
    | Call.bt_app_send_data _ _ => true
    | _ => false)).length

/-- Whether a call belongs to BLE bring-up or starts the timer. -/
def Call.starts_service : Call → Bool
  | Call.bt_app_init => true
  | Call.bt_app_advertise_start => true
  | Call.k_timer_start _ _ => true
  | _ => false

/-- Whether a call is one of the per-cycle I2C sensor operations. -/
def Call.is_sensor_op : Call → Bool
  | Call.sht3x_measure => true
  | Call.qmp6988_calcPressure => true
  | Call.sgp30_measureAirQuality => true
  | Call.sgp30_setCompensation _ _ => true
  | _ => false

/-- The calls a cycle makes: what `app_work_handler` appends to the trace. -/
def cycle_calls (cfg : Bool) (inp : CycleIn) (w : World) : List Call :=
  (app_work_handler cfg inp w).trace.drop w.trace.length

/-- A start-up in which every external call succeeds. -/
def boot_ok : BootIn :=
  { gpio_ret := 0, sht3x_ok := true, qmp6988_ok := true, sgp30_ok := true,
    bt_init_ret := 0, adv_ret := 0 }

/-- A start-up in which `sgp30_init_sensor` returns NULL. -/
def boot_sgp30_fails : BootIn :=
  { gpio_ret := 0, sht3x_ok := true, qmp6988_ok := true, sgp30_ok := false,
    bt_init_ret := 0, adv_ret := 0 }

/-- Scenario A of the specification: 3700 mV, 24.5 C (`0x41C40000`), 45.2 %
(`0x4234CCCD`), with 1013.25 hPa (`0x447D5000`) and a successful `sht3x_measure`. -/
def scenario_A : CycleIn :=
  { batt_mV := 3700, sht3x_ret := 1,
    sht3x_temperature := 0x41C40000, sht3x_humidity := 0x4234CCCD,
    qmp6988_pressure := 0x447D5000, qmp6988_temperature := 0x41C80000,
    sgp30_CO2 := 400, sgp30_TVOC := 12 }

/-- Scenario B: the next cycle, in which `battery_sample` fails with `-5`. -/
def scenario_B : CycleIn :=
  { batt_mV := -5, sht3x_ret := 1,
    sht3x_temperature := 0x41C80000, sht3x_humidity := 0x42340000,
    qmp6988_pressure := 0x447D4000, qmp6988_temperature := 0x41CC0000,
    sgp30_CO2 := 410, sgp30_TVOC := 13 }

/-- A later cycle in which every read succeeds, with new values throughout. -/
def scenario_C : CycleIn :=
  { batt_mV := 3650, sht3x_ret := 1,
    sht3x_temperature := 0x41C80000, sht3x_humidity := 0x42340000,
    qmp6988_pressure := 0x447D4000, qmp6988_temperature := 0x41CC0000,
    sgp30_CO2 := 410, sgp30_TVOC := 13 }

/-- Scenario A with another reading of the pressure sensor's own temperature. -/
def scenario_A_warmer : CycleIn :=
  { scenario_A with qmp6988_temperature := 0x41F00000 }

/-- The world once start-up has succeeded and the first cycle (scenario A) has
run to completion. -/
def after_first_cycle : World :=
  app_work_handler CONFIG_SGP30 scenario_A (main CONFIG_SGP30 boot_ok World.boot)

/-! ## Facts about the object representation -/

theorem sizeof_send_data_t_enabled : sizeof_send_data_t true = 20 := by decide

theorem sizeof_send_data_t_disabled : sizeof_send_data_t false = 16 := by decide

/-- `send_data_t` has no padding: its bytes are the members' bytes, one after
the other, in declaration order. -/
theorem bytes_of_send_data_eq (cfg : Bool) (d : send_data_t) :
    bytes_of_send_data cfg d =
      le_bytes 4 (int_bits d.battery_mV) ++ le_bytes 4 d.temperature
        ++ le_bytes 4 d.humidity ++ le_bytes 4 d.pressure
        ++ (if cfg then le_bytes 2 d.co2 ++ le_bytes 2 d.tvoc else []) := by
  cases cfg <;>
    simp [bytes_of_send_data, struct_bytes, send_data_members, struct_bytes_from, struct_align,
      align_up, CType.sizeof, CType.alignof, le_bytes]

theorem length_bytes_of_send_data (cfg : Bool) (d : send_data_t) :
    (bytes_of_send_data cfg d).length = sizeof_send_data_t cfg := by
  cases cfg <;>
    simp [sizeof_send_data_t, bytes_of_send_data_eq, le_bytes]

/-- The handler is the sequence of its statements. -/
theorem app_work_handler_eq_run_steps (cfg : Bool) (inp : CycleIn) (w : World) :
    app_work_handler cfg inp w = run_steps (app_work_steps cfg inp) w := by
  cases cfg
  · rfl
  · by_cases h : inp.sht3x_ret = 0 <;>
      simp [app_work_handler, run_steps, app_work_steps, get_i2c_sensors_values, h]

/-! ## How one cycle changes `send_data` -/

/-- The snapshot a cycle leaves behind, member by member. -/
theorem send_data_app_work_handler (cfg : Bool) (inp : CycleIn) (w : World) :
    (app_work_handler cfg inp w).send_data =
      { battery_mV := if inp.batt_mV < 0 then w.send_data.battery_mV else inp.batt_mV,
        temperature := inp.sht3x_temperature,
        humidity := inp.sht3x_humidity,
        pressure := inp.qmp6988_pressure,
        co2 := if cfg then inp.sgp30_CO2 % 2 ^ 16 else w.send_data.co2,
        tvoc := if cfg then inp.sgp30_TVOC % 2 ^ 16 else w.send_data.tvoc } := by
  cases cfg <;> by_cases hb : inp.batt_mV < 0 <;> by_cases h : inp.sht3x_ret = 0 <;>
    simp [app_work_handler, get_i2c_sensors_values, store_battery, hb, h] <;> rfl

theorem exists_before_last_two (l : List Call) (x y z : Call) :
    ∃ before, l ++ [x, y, z] = before ++ [y, z] :=
  ⟨l ++ [x], by simp⟩

/-- The calls one cycle appends to the trace, in program order. -/
theorem trace_app_work_handler (cfg : Bool) (inp : CycleIn) (w : World) :
    (app_work_handler cfg inp w).trace =
      w.trace
        ++ [Call.gpio_pin_set_dt 0, Call.battery_measure_enable true, Call.battery_sample]
        ++ (if inp.batt_mV < 0 then [Call.LOG_WRN] else [])
        ++ [Call.battery_measure_enable false, Call.sht3x_measure, Call.qmp6988_calcPressure]
        ++ (if cfg then
              Call.sgp30_measureAirQuality ::
                (if inp.sht3x_ret ≠ 0 then
                  [Call.sgp30_setCompensation inp.sht3x_humidity inp.sht3x_temperature]
                 else [])
            else [])
        ++ [Call.LOG_INF,
            Call.bt_app_send_data (bytes_of_send_data cfg (app_work_handler cfg inp w).send_data)
              (sizeof_send_data_t cfg),
            Call.gpio_pin_set_dt 1] := by
  rw [send_data_app_work_handler]
  cases cfg <;> by_cases hb : inp.batt_mV < 0 <;> by_cases h : inp.sht3x_ret = 0 <;>
    simp [app_work_handler, get_i2c_sensors_values, store_battery, hb, h, gpio_pin_set_dt,
      bt_app_send_data, emit, battery_measure_enable, battery_sample, sht3x_measure,
      qmp6988_calcPressure, sgp30_measureAirQuality, sgp30_setCompensation, store_temperature,
      store_humidity, store_pressure, store_co2, store_tvoc]

/-- The calls of one cycle, first to last. -/
theorem cycle_calls_eq (cfg : Bool) (inp : CycleIn) (w : World) :
    cycle_calls cfg inp w =
      Call.gpio_pin_set_dt 0 :: Call.battery_measure_enable true :: Call.battery_sample ::
        ((if inp.batt_mV < 0 then [Call.LOG_WRN] else [])
          ++ [Call.battery_measure_enable false, Call.sht3x_measure, Call.qmp6988_calcPressure]
          ++ (if cfg then
                Call.sgp30_measureAirQuality ::
                  (if inp.sht3x_ret ≠ 0 then
                    [Call.sgp30_setCompensation inp.sht3x_humidity inp.sht3x_temperature]
                   else [])
              else [])
          ++ [Call.LOG_INF,
              Call.bt_app_send_data
                (bytes_of_send_data cfg (app_work_handler cfg inp w).send_data)
                (sizeof_send_data_t cfg)])
        ++ [Call.gpio_pin_set_dt 1] := by
  simp [cycle_calls, trace_app_work_handler]

/-! ## Claims -/

/-- C1: in a cycle whose `battery_sample` returns a negative value, `battery_mV`
of the snapshot is after the cycle what it was before, whatever the sensors
return. -/
theorem battery_failure_keeps_battery_mV (cfg : Bool) (inp : CycleIn) (w : World)
    (h : inp.batt_mV < 0) :
    (app_work_handler cfg inp w).send_data.battery_mV = w.send_data.battery_mV := by
  rw [send_data_app_work_handler]
  simp [h]

theorem battery_failure_keeps_battery_mV_witness :
    scenario_B.batt_mV < 0 ∧
    (app_work_handler CONFIG_SGP30 scenario_B
        (app_work_handler CONFIG_SGP30 scenario_A World.boot)).send_data.battery_mV
      = (app_work_handler CONFIG_SGP30 scenario_A World.boot).send_data.battery_mV :=
  ⟨by decide, battery_failure_keeps_battery_mV CONFIG_SGP30 scenario_B _ (by decide)⟩

/-- C2: when `APP_BT_MAX_ATTR_LEN` is smaller than `sizeof(send_data_t)`, the read
callback returns the negative code `-EINVAL` and the destination is untouched. -/
theorem app_bt_cb_too_small (cfg : Bool) (APP_BT_MAX_ATTR_LEN : Nat) (data : List Nat)
    (w : World) (h : APP_BT_MAX_ATTR_LEN < sizeof_send_data_t cfg) :
    (app_bt_cb cfg APP_BT_MAX_ATTR_LEN data w).1 = -EINVAL ∧
    (app_bt_cb cfg APP_BT_MAX_ATTR_LEN data w).1 < 0 ∧
    (app_bt_cb cfg APP_BT_MAX_ATTR_LEN data w).2.1 = data := by
  simp [app_bt_cb, h, EINVAL]

theorem app_bt_cb_too_small_witness :
    19 < sizeof_send_data_t CONFIG_SGP30 ∧
    (app_bt_cb CONFIG_SGP30 19 [1, 2, 3] World.boot).1 = -EINVAL ∧
    (app_bt_cb CONFIG_SGP30 19 [1, 2, 3] World.boot).1 < 0 ∧
    (app_bt_cb CONFIG_SGP30 19 [1, 2, 3] World.boot).2.1 = [1, 2, 3] :=
  ⟨by decide, app_bt_cb_too_small CONFIG_SGP30 19 [1, 2, 3] World.boot (by decide)⟩

/-- C6: after a cycle whose battery sample `b` is not negative, the snapshot
holds `b` and the cycle's temperature, humidity and pressure, and that snapshot
is what the cycle hands to `bt_app_send_data` just before it returns. -/
theorem cycle_publishes_readings (cfg : Bool) (inp : CycleIn) (w : World)
    (h : 0 ≤ inp.batt_mV) :
    (app_work_handler cfg inp w).send_data.battery_mV = inp.batt_mV ∧
    (app_work_handler cfg inp w).send_data.temperature = inp.sht3x_temperature ∧
    (app_work_handler cfg inp w).send_data.humidity = inp.sht3x_humidity ∧
    (app_work_handler cfg inp w).send_data.pressure = inp.qmp6988_pressure ∧
    ∃ before,
      (app_work_handler cfg inp w).trace =
        before ++ [Call.bt_app_send_data
                     (bytes_of_send_data cfg (app_work_handler cfg inp w).send_data)
                     (sizeof_send_data_t cfg),
                   Call.gpio_pin_set_dt 1] := by
  refine ⟨?_, ?_, ?_, ?_, ?_⟩
  · rw [send_data_app_work_handler]; simp [not_lt.mpr h]
  · rw [send_data_app_work_handler]
  · rw [send_data_app_work_handler]
  · rw [send_data_app_work_handler]
  · rw [trace_app_work_handler]
    exact exists_before_last_two _ _ _ _

theorem cycle_publishes_readings_witness :
    0 ≤ scenario_A.batt_mV ∧
    (app_work_handler CONFIG_SGP30 scenario_A World.boot).send_data.battery_mV = 3700 ∧
    (app_work_handler CONFIG_SGP30 scenario_A World.boot).send_data.temperature = 0x41C40000 ∧
    (app_work_handler CONFIG_SGP30 scenario_A World.boot).send_data.humidity = 0x4234CCCD ∧
    (app_work_handler CONFIG_SGP30 scenario_A World.boot).send_data.pressure = 0x447D5000 :=
  have h := cycle_publishes_readings CONFIG_SGP30 scenario_A World.boot (by decide)
  ⟨by decide, h.1, h.2.1, h.2.2.1, h.2.2.2.1⟩

/-- The read callback when the snapshot fits. -/
theorem app_bt_cb_of_le (cfg : Bool) (APP_BT_MAX_ATTR_LEN : Nat) (data : List Nat)
    (w : World) (h : sizeof_send_data_t cfg ≤ APP_BT_MAX_ATTR_LEN) :
    app_bt_cb cfg APP_BT_MAX_ATTR_LEN data w =
      ((sizeof_send_data_t cfg : Int),
       bytes_of_send_data cfg w.send_data ++ data.drop (sizeof_send_data_t cfg), w) := by
  have hlen := length_bytes_of_send_data cfg w.send_data
  simp only [app_bt_cb, not_lt.mpr h, if_false, memcpy]
  rw [← hlen, List.take_length]

/-- C7: when `APP_BT_MAX_ATTR_LEN` is at least `sizeof(send_data_t)`, the read
callback returns `sizeof(send_data_t)`, the first that many bytes of the
destination are the members of the snapshot in declaration order (`battery_mV`,
`temperature`, `humidity`, `pressure`, then `co2` and `tvoc` under
`CONFIG_SGP30`), the rest of the destination is as it was, and the world with
the snapshot is unchanged. -/
theorem app_bt_cb_copies_snapshot (cfg : Bool) (APP_BT_MAX_ATTR_LEN : Nat) (data : List Nat)
    (w : World) (h : sizeof_send_data_t cfg ≤ APP_BT_MAX_ATTR_LEN) :
    (app_bt_cb cfg APP_BT_MAX_ATTR_LEN data w).1 = sizeof_send_data_t cfg ∧
    (app_bt_cb cfg APP_BT_MAX_ATTR_LEN data w).2.1.take (sizeof_send_data_t cfg) =
      le_bytes 4 (int_bits w.send_data.battery_mV) ++ le_bytes 4 w.send_data.temperature
        ++ le_bytes 4 w.send_data.humidity ++ le_bytes 4 w.send_data.pressure
        ++ (if cfg then le_bytes 2 w.send_data.co2 ++ le_bytes 2 w.send_data.tvoc else []) ∧
    (app_bt_cb cfg APP_BT_MAX_ATTR_LEN data w).2.1.drop (sizeof_send_data_t cfg) =
      data.drop (sizeof_send_data_t cfg) ∧
    (app_bt_cb cfg APP_BT_MAX_ATTR_LEN data w).2.2 = w := by
  have hlen := length_bytes_of_send_data cfg w.send_data
  rw [app_bt_cb_of_le cfg APP_BT_MAX_ATTR_LEN data w h]
  refine ⟨rfl, ?_, ?_, rfl⟩
  · show (bytes_of_send_data cfg w.send_data ++ _).take (sizeof_send_data_t cfg) = _
    rw [← hlen, List.take_left, bytes_of_send_data_eq]
  · show (bytes_of_send_data cfg w.send_data ++ _).drop (sizeof_send_data_t cfg) = _
    rw [← hlen, List.drop_left, hlen]

theorem app_bt_cb_copies_snapshot_witness :
    sizeof_send_data_t CONFIG_SGP30 ≤ 20 ∧
    (app_bt_cb CONFIG_SGP30 20 (List.replicate 24 255)
        (app_work_handler CONFIG_SGP30 scenario_A World.boot)).1 = 20 ∧
    (app_bt_cb CONFIG_SGP30 20 (List.replicate 24 255)
        (app_work_handler CONFIG_SGP30 scenario_A World.boot)).2.1 =
      [0x74, 0x0E, 0, 0,  0, 0, 0xC4, 0x41,  0xCD, 0xCC, 0x34, 0x42,  0, 0x50, 0x7D, 0x44,
       0x90, 0x01,  0x0C, 0,  255, 255, 255, 255] :=
  have h := app_bt_cb_copies_snapshot CONFIG_SGP30 20 (List.replicate 24 255)
    (app_work_handler CONFIG_SGP30 scenario_A World.boot) (by decide)
  ⟨by decide, h.1, by decide⟩

/-- C3: in every cycle the sensor operations are, in this order, the
humidity/temperature measurement, the pressure read, the air-quality
measurement and then, exactly when `sht3x_measure` returned non-zero, the
compensation fed with that cycle's humidity and temperature. -/
theorem compensation_iff_sht3x_measure_nonzero (inp : CycleIn) (w : World) :
    (cycle_calls CONFIG_SGP30 inp w).filter Call.is_sensor_op =
      [Call.sht3x_measure, Call.qmp6988_calcPressure, Call.sgp30_measureAirQuality]
        ++ (if inp.sht3x_ret ≠ 0 then
              [Call.sgp30_setCompensation inp.sht3x_humidity inp.sht3x_temperature]
            else []) ∧
    ((∃ h t, Call.sgp30_setCompensation h t ∈ cycle_calls CONFIG_SGP30 inp w)
      ↔ inp.sht3x_ret ≠ 0) := by
  rw [cycle_calls_eq]
  by_cases hb : inp.batt_mV < 0 <;> by_cases h : inp.sht3x_ret = 0 <;>
    simp [hb, h, Call.is_sensor_op, CONFIG_SGP30]

/-! ## Start-up -/

/-- With the timer stopped, expiries never happen: the world stays as it is. -/
theorem foldl_app_timer_expiry_stopped (cfg : Bool) (ticks : List CycleIn) (w : World)
    (h : w.app_timer = false) :
    ticks.foldl (app_timer_expiry cfg) w = w := by
  induction ticks with
  | nil => rfl
  | cons i rest ih => simpa [List.foldl, app_timer_expiry, h] using ih

/-- When `init_i2c_sensors` returns `true`. -/
theorem init_i2c_sensors_ok (cfg : Bool) (b : BootIn) (w : World) :
    (init_i2c_sensors cfg b w).1 = (b.sht3x_ok && b.qmp6988_ok && (!cfg || b.sgp30_ok)) := by
  rcases b with ⟨g, s, q, a, bi, ad⟩
  cases cfg <;> cases s <;> cases q <;> cases a <;> simp [init_i2c_sensors, emit]

/-- What `main` leaves behind when a sensor constructor fails. -/
theorem main_of_sensor_init_failed (b : BootIn)
    (h : b.sht3x_ok = false ∨ b.qmp6988_ok = false ∨ b.sgp30_ok = false) :
    (main CONFIG_SGP30 b World.boot).app_timer = false ∧
    (∀ c ∈ (main CONFIG_SGP30 b World.boot).trace, c.starts_service = false) ∧
    publish_count (main CONFIG_SGP30 b World.boot) = 0 := by
  rcases b with ⟨g, s, q, a, bi, ad⟩
  by_cases hg : g < 0
  · simp [main, hg, gpio_pin_configure_dt_OUTPUT_ACTIVE, emit, World.boot, publish_count,
      Call.starts_service]
  · cases s <;> cases q <;> cases a <;> simp at h <;>
      simp [main, CONFIG_SGP30, init_i2c_sensors, gpio_pin_configure_dt_OUTPUT_ACTIVE, emit,
        World.boot, publish_count, Call.starts_service, hg]

/-- C4: when the constructor of any sensor fails, then after start-up and any
number of timer periods the timer has not been started, neither `bt_app_init`
nor `bt_app_advertise_start` nor `k_timer_start` has been called, and nothing
has been published; and whatever start-up returns, the timer is running
afterwards only if `init_i2c_sensors` returned `true`. -/
theorem sensor_init_failure_never_starts_timer (b : BootIn) (ticks : List CycleIn)
    (h : b.sht3x_ok = false ∨ b.qmp6988_ok = false ∨ b.sgp30_ok = false) :
    (system_run CONFIG_SGP30 b ticks).app_timer = false ∧
    (∀ c ∈ (system_run CONFIG_SGP30 b ticks).trace, c.starts_service = false) ∧
    publish_count (system_run CONFIG_SGP30 b ticks) = 0 ∧
    (∀ b2 : BootIn, (main CONFIG_SGP30 b2 World.boot).app_timer = true →
      (init_i2c_sensors CONFIG_SGP30 b2
        (gpio_pin_configure_dt_OUTPUT_ACTIVE b2.gpio_ret World.boot)).1 = true) := by
  have hm := main_of_sensor_init_failed b h
  have hrun : system_run CONFIG_SGP30 b ticks = main CONFIG_SGP30 b World.boot :=
    foldl_app_timer_expiry_stopped _ _ _ hm.1
  rw [hrun]
  refine ⟨hm.1, hm.2.1, hm.2.2, ?_⟩
  intro b2 ht
  by_contra hinit
  have hf : b2.sht3x_ok = false ∨ b2.qmp6988_ok = false ∨ b2.sgp30_ok = false := by
    rw [init_i2c_sensors_ok] at hinit
    rcases b2 with ⟨g, s, q, a, bi, ad⟩
    cases s <;> cases q <;> cases a <;> simp_all [CONFIG_SGP30]
  have := (main_of_sensor_init_failed b2 hf).1
  simp_all

theorem sensor_init_failure_never_starts_timer_witness :
    (boot_sgp30_fails.sht3x_ok = false ∨ boot_sgp30_fails.qmp6988_ok = false
      ∨ boot_sgp30_fails.sgp30_ok = false) ∧
    (system_run CONFIG_SGP30 boot_sgp30_fails [scenario_A, scenario_B]).app_timer = false ∧
    publish_count (system_run CONFIG_SGP30 boot_sgp30_fails [scenario_A, scenario_B]) = 0 :=
  have h := sensor_init_failure_never_starts_timer boot_sgp30_fails [scenario_A, scenario_B]
    (by decide)
  ⟨by decide, h.1, h.2.2.1⟩

/-! ## The `led0` output -/

theorem length_app_work_steps (cfg : Bool) (inp : CycleIn) :
    (app_work_steps cfg inp).length = 17 := rfl

/-- Every cycle leaves `led0` at logical 1. -/
theorem led0_app_work_handler (cfg : Bool) (inp : CycleIn) (w : World) :
    (app_work_handler cfg inp w).led0 = some 1 := rfl

/-- Once the pin is configured, `led0` is at logical 1 whenever no cycle runs. -/
theorem led0_foldl_app_timer_expiry (cfg : Bool) (ticks : List CycleIn) (w : World)
    (h : w.led0 = some 1) :
    (ticks.foldl (app_timer_expiry cfg) w).led0 = some 1 := by
  induction ticks generalizing w with
  | nil => exact h
  | cons i rest ih =>
    apply ih
    unfold app_timer_expiry
    split
    · exact led0_app_work_handler cfg i w
    · exact h

theorem led0_main (cfg : Bool) (b : BootIn) (w : World) (h : 0 ≤ b.gpio_ret) :
    (main cfg b w).led0 = some 1 := by
  rcases b with ⟨g, s, q, a, bi, ad⟩
  have hg : ¬ g < 0 := not_lt.mpr h
  by_cases h1 : bi = 0 <;> by_cases h2 : ad = 0 <;>
    cases cfg <;> cases s <;> cases q <;> cases a <;>
      simp [main, init_i2c_sensors, gpio_pin_configure_dt_OUTPUT_ACTIVE, emit, k_timer_start,
        hg, h1, h2]

/-- Between the first and the last statement of a cycle `led0` is at logical 0. -/
theorem led0_cycle_after (cfg : Bool) (inp : CycleIn) (w : World) (k : Nat)
    (h1 : 1 ≤ k) (h2 : k < 17) :
    (cycle_after cfg inp k w).led0 = some 0 := by
  interval_cases k <;> cases cfg <;> by_cases hb : inp.batt_mV < 0 <;>
    by_cases hr : inp.sht3x_ret = 0 <;>
    simp [cycle_after, app_work_steps, run_steps, store_battery, hb, hr] <;> rfl

/-- C5, as the code has it: `led0` is at logical 0 from the first statement of a
cycle until its last and at logical 1 otherwise.  The handler's first call is
`gpio_pin_set_dt(.., 0)` and its last `gpio_pin_set_dt(.., 1)`; a pin
configured with `GPIO_OUTPUT_ACTIVE` is at 1 after start-up and, whatever
start-up did and however many periods pass, at 1 whenever no cycle runs. -/
theorem led0_low_exactly_during_cycle (cfg : Bool) (b : BootIn) (ticks : List CycleIn)
    (inp : CycleIn) (w : World) (k : Nat)
    (hg : 0 ≤ b.gpio_ret) (h1 : 1 ≤ k) (h2 : k < 17) :
    (cycle_calls cfg inp w).head? = some (Call.gpio_pin_set_dt 0) ∧
    (cycle_calls cfg inp w).getLast? = some (Call.gpio_pin_set_dt 1) ∧
    (cycle_after cfg inp k w).led0 = some 0 ∧
    (app_work_handler cfg inp w).led0 = some 1 ∧
    (main cfg b World.boot).led0 = some 1 ∧
    (system_run cfg b ticks).led0 = some 1 := by
  refine ⟨?_, ?_, led0_cycle_after cfg inp w k h1 h2, led0_app_work_handler cfg inp w,
    led0_main cfg b _ hg, led0_foldl_app_timer_expiry cfg ticks _ (led0_main cfg b _ hg)⟩
  · rw [cycle_calls_eq]; rfl
  · rw [cycle_calls_eq, List.getLast?_append]; rfl

theorem led0_low_exactly_during_cycle_witness :
    0 ≤ boot_ok.gpio_ret ∧ 1 ≤ 9 ∧ 9 < 17 ∧
    (cycle_after CONFIG_SGP30 scenario_A 9 (main CONFIG_SGP30 boot_ok World.boot)).led0
      = some 0 ∧
    (system_run CONFIG_SGP30 boot_ok [scenario_A, scenario_B]).led0 = some 1 :=
  have h := led0_low_exactly_during_cycle CONFIG_SGP30 boot_ok [scenario_A, scenario_B]
    scenario_A (main CONFIG_SGP30 boot_ok World.boot) 9 (by decide) (by decide) (by decide)
  ⟨by decide, by decide, by decide, h.2.2.1, h.2.2.2.2.2⟩

/-- C5 as stated fails: after a successful start-up `led0` is at logical 1 before
the first cycle, the first statement of the cycle drives it to 0, it is still 0
just before the last statement, the cycle leaves it at 1, and after a failed
sensor constructor it stays at 1. -/
theorem led0_high_outside_cycle_low_inside :
    (main CONFIG_SGP30 boot_ok World.boot).led0 = some 1 ∧
    (cycle_after CONFIG_SGP30 scenario_A 1 (main CONFIG_SGP30 boot_ok World.boot)).led0
      = some 0 ∧
    (cycle_after CONFIG_SGP30 scenario_A 16 (main CONFIG_SGP30 boot_ok World.boot)).led0
      = some 0 ∧
    (app_work_handler CONFIG_SGP30 scenario_A (main CONFIG_SGP30 boot_ok World.boot)).led0
      = some 1 ∧
    (system_run CONFIG_SGP30 boot_sgp30_fails [scenario_A]).led0 = some 1 := by
  decide

/-! ## Reads while a cycle runs -/

/-- Up to its first store into `send_data` a cycle leaves the snapshot alone:
that store is the fourth statement, or the eleventh when the battery sample
failed. -/
theorem send_data_cycle_after (cfg : Bool) (inp : CycleIn) (w : World) (k : Nat)
    (hk : k ≤ 3 ∨ (inp.batt_mV < 0 ∧ k ≤ 10)) :
    (cycle_after cfg inp k w).send_data = w.send_data := by
  rcases hk with hk | ⟨hb, hk⟩
  · interval_cases k <;> rfl
  · interval_cases k <;> cases cfg <;> by_cases hr : inp.sht3x_ret = 0 <;>
      simp [cycle_after, app_work_steps, run_steps, store_battery, hb, hr] <;> rfl

/-- C8, as the code has it: a read that runs after cycle N has completed and
before cycle N+1 makes its first store into the snapshot returns exactly the
snapshot cycle N left. -/
theorem read_before_first_store_returns_last_cycle (cfg : Bool) (APP_BT_MAX_ATTR_LEN : Nat)
    (data : List Nat) (inpN inpN1 : CycleIn) (w : World) (k : Nat)
    (hlen : sizeof_send_data_t cfg ≤ APP_BT_MAX_ATTR_LEN)
    (hk : k ≤ 3 ∨ (inpN1.batt_mV < 0 ∧ k ≤ 10)) :
    (app_bt_cb cfg APP_BT_MAX_ATTR_LEN data
        (cycle_after cfg inpN1 k (app_work_handler cfg inpN w))).1 = sizeof_send_data_t cfg ∧
    (app_bt_cb cfg APP_BT_MAX_ATTR_LEN data
        (cycle_after cfg inpN1 k (app_work_handler cfg inpN w))).2.1.take (sizeof_send_data_t cfg)
      = bytes_of_send_data cfg (app_work_handler cfg inpN w).send_data := by
  rw [app_bt_cb_of_le cfg APP_BT_MAX_ATTR_LEN data _ hlen, send_data_cycle_after cfg inpN1 _ k hk]
  refine ⟨rfl, ?_⟩
  show (bytes_of_send_data cfg _ ++ _).take (sizeof_send_data_t cfg) = _
  rw [← length_bytes_of_send_data cfg (app_work_handler cfg inpN w).send_data, List.take_left]

theorem read_before_first_store_returns_last_cycle_witness :
    sizeof_send_data_t CONFIG_SGP30 ≤ 20 ∧ (3 ≤ 3 ∨ (scenario_C.batt_mV < 0 ∧ 3 ≤ 10)) ∧
    (app_bt_cb CONFIG_SGP30 20 (List.replicate 20 0)
        (cycle_after CONFIG_SGP30 scenario_C 3
          (app_work_handler CONFIG_SGP30 scenario_A World.boot))).2.1.take
        (sizeof_send_data_t CONFIG_SGP30)
      = bytes_of_send_data CONFIG_SGP30
          (app_work_handler CONFIG_SGP30 scenario_A World.boot).send_data :=
  have h := read_before_first_store_returns_last_cycle CONFIG_SGP30 20 (List.replicate 20 0)
    scenario_A scenario_C World.boot 3 (by decide) (by decide)
  ⟨by decide, by decide, h.2⟩

/-- C8 as stated fails: with cycle 1 (scenario A) complete, a read that runs
after the fourth statement of cycle 2 (scenario C), that is after
`send_data.battery_mV = batt_mV` and before the other stores, succeeds and
returns cycle 2's battery voltage next to cycle 1's temperature, humidity,
pressure, CO2 and TVOC: neither cycle 1's snapshot nor cycle 2's. -/
theorem read_between_stores_mixes_cycles :
    (app_bt_cb CONFIG_SGP30 20 (List.replicate 20 0)
        (cycle_after CONFIG_SGP30 scenario_C 4 after_first_cycle)).1 = 20 ∧
    (app_bt_cb CONFIG_SGP30 20 (List.replicate 20 0)
        (cycle_after CONFIG_SGP30 scenario_C 4 after_first_cycle)).2.1
      = bytes_of_send_data CONFIG_SGP30
          { after_first_cycle.send_data with battery_mV := scenario_C.batt_mV } ∧
    (app_bt_cb CONFIG_SGP30 20 (List.replicate 20 0)
        (cycle_after CONFIG_SGP30 scenario_C 4 after_first_cycle)).2.1
      ≠ bytes_of_send_data CONFIG_SGP30 after_first_cycle.send_data ∧
    (app_bt_cb CONFIG_SGP30 20 (List.replicate 20 0)
        (cycle_after CONFIG_SGP30 scenario_C 4 after_first_cycle)).2.1
      ≠ bytes_of_send_data CONFIG_SGP30
          (app_work_handler CONFIG_SGP30 scenario_C after_first_cycle).send_data := by
  decide

/-! ## What the snapshot holds -/

theorem env_sensors_app_work_handler (cfg : Bool) (inp : CycleIn) (w : World) :
    (app_work_handler cfg inp w).env_sensors =
      { w.env_sensors with temperature := inp.sht3x_temperature,
                           humidity := inp.sht3x_humidity,
                           pressure := inp.qmp6988_pressure,
                           temperature_p := inp.qmp6988_temperature } := by
  cases cfg <;> by_cases hb : inp.batt_mV < 0 <;> by_cases h : inp.sht3x_ret = 0 <;>
    simp [app_work_handler, get_i2c_sensors_values, store_battery, hb, h] <;> rfl

/-- C9, as the code has it: the pressure sensor's own temperature is kept in
`env_sensors.temperature_p` only.  The snapshot a cycle publishes holds the
battery voltage (or the stale one), temperature, humidity and pressure, and is
the same whatever that temperature reading is. -/
theorem snapshot_omits_temperature_p (cfg : Bool) (inp : CycleIn) (w : World) (tp : c_float) :
    (app_work_handler cfg inp w).env_sensors.temperature_p = inp.qmp6988_temperature ∧
    (app_work_handler cfg { inp with qmp6988_temperature := tp } w).send_data
      = (app_work_handler cfg inp w).send_data ∧
    (app_work_handler cfg inp w).send_data.temperature = inp.sht3x_temperature ∧
    (app_work_handler cfg inp w).send_data.humidity = inp.sht3x_humidity ∧
    (app_work_handler cfg inp w).send_data.pressure = inp.qmp6988_pressure := by
  rw [env_sensors_app_work_handler, send_data_app_work_handler, send_data_app_work_handler]
  exact ⟨rfl, rfl, rfl, rfl, rfl⟩

/-- C9 as stated fails: two cycles that differ only in the pressure sensor's own
temperature (25.0 C against 30.0 C) publish the same snapshot, byte for byte. -/
theorem snapshot_same_for_different_temperature_p :
    scenario_A.qmp6988_temperature ≠ scenario_A_warmer.qmp6988_temperature ∧
    (app_work_handler CONFIG_SGP30 scenario_A World.boot).send_data
      = (app_work_handler CONFIG_SGP30 scenario_A_warmer World.boot).send_data ∧
    (app_bt_cb CONFIG_SGP30 20 (List.replicate 20 0)
        (app_work_handler CONFIG_SGP30 scenario_A World.boot)).2.1
      = (app_bt_cb CONFIG_SGP30 20 (List.replicate 20 0)
        (app_work_handler CONFIG_SGP30 scenario_A_warmer World.boot)).2.1 := by
  decide

/-! ## The configuration as shipped -/

/-- C10 at the source as it stands: `CONFIG_SGP30` is defined, so start-up
constructs the air-quality device and runs its baseline routine, each cycle
measures air quality and applies compensation, and the snapshot is the 20-byte
form with `co2` and `tvoc`, four bytes more than the 16-byte form without. -/
theorem default_configuration_includes_sgp30 :
    CONFIG_SGP30 = true ∧
    sizeof_send_data_t CONFIG_SGP30 = 20 ∧
    sizeof_send_data_t false + 4 = sizeof_send_data_t true ∧
    Call.sgp30_init_sensor ∈ (main CONFIG_SGP30 boot_ok World.boot).trace ∧
    Call.sgp30_initAirQuality ∈ (main CONFIG_SGP30 boot_ok World.boot).trace ∧
    Call.sgp30_measureAirQuality
      ∈ cycle_calls CONFIG_SGP30 scenario_A (main CONFIG_SGP30 boot_ok World.boot) ∧
    Call.sgp30_setCompensation 0x4234CCCD 0x41C40000
      ∈ cycle_calls CONFIG_SGP30 scenario_A (main CONFIG_SGP30 boot_ok World.boot) ∧
    (bytes_of_send_data CONFIG_SGP30 after_first_cycle.send_data).drop 16
      = [0x90, 0x01, 0x0C, 0] := by
  decide

end NRF52Sensors
